import Mathlib

/-!
Shallow embedding of the CropCareAI plant-disease detection core
(src/CropCareAI/plant_disease_detector.py and src/CropCareAI/gemini_service.py).

Modelling conventions:
* Python floats are (dyadic) rationals; all float arithmetic that the source
  performs exactly (threshold comparisons, counting ratios, uniform-draw
  affine maps, literal confidences) is embedded over `ℚ`.  The texture
  statistics involve square roots, so that part of the feature extractor is
  embedded over `ℝ`.
* External collaborators (the `cv2` image library, the filesystem, the
  `random` module, the Gemini API) are modelled as oracles: decoded images
  are lists of HSV pixel triples, Sobel responses are lists of reals, the
  filesystem is a pair of functions (existence test and JSON-parse result),
  and each `random.*` call site reads one dedicated field of a `RandOracle`
  record.  `random.choice(l)` / `random.randint(0, n)` are modelled by
  reducing an arbitrary oracle natural modulo the list length / `n + 1`,
  which yields exactly the set of outcomes the source call can produce.
* Exceptions are modelled with `Except`: `detect_try` is the body of the
  `try:` block of `detect_disease`, and `detect_disease` adds the
  `except:` handler, exactly as in the source.
-/

/-- The `CLASSES` list of plant_disease_detector.py (lines 13-24), verbatim. -/
def CLASSES : List String := [
  "Apple_Apple_scab", "Apple_Black_rot", "Apple_Cedar_apple_rust", "Apple_Healthy",
  "Background_without_leaves", "Blueberry_Healthy", "Cherry_Powdery_mildew", "Cherry_Healthy",
  "Corn_Cercospora_leaf_spot", "Corn_Common_rust", "Corn_Northern_Leaf_Blight", "Corn_Healthy",
  "Grape_Black_rot", "Grape_Esca", "Grape_Leaf_blight", "Grape_Healthy",
  "Orange_Haunglongbing", "Peach_Bacterial_spot", "Peach_Healthy",
  "Pepper_Bacterial_spot", "Pepper_Healthy", "Potato_Early_blight", "Potato_Late_blight", "Potato_Healthy",
  "Raspberry_Healthy", "Soybean_Healthy", "Squash_Powdery_mildew",
  "Strawberry_Leaf_scorch", "Strawberry_Healthy", "Tomato_Bacterial_spot", "Tomato_Early_blight",
  "Tomato_Late_blight", "Tomato_Leaf_Mold", "Tomato_Septoria_leaf_spot",
  "Tomato_Spider_mites", "Tomato_Target_Spot", "Tomato_Mosaic_virus", "Tomato_Yellow_Leaf_Curl_Virus", "Tomato_Healthy"
]

/-- Embedding of `DISEASE_INDICATORS` (lines 27-33): entries are (lower, upper) HSV bound
triples, in the source's insertion order brown, yellow, black, white,
dark-brown/rotting. -/
def DISEASE_INDICATORS : List ((ℕ × ℕ × ℕ) × (ℕ × ℕ × ℕ)) := [
  ((10, 100, 20), (20, 255, 200)),
  ((20, 100, 100), (30, 255, 255)),
  ((0, 0, 0), (180, 255, 30)),
  ((0, 0, 200), (180, 30, 255)),
  ((0, 50, 10), (15, 255, 100))
]

/-- Embedding of the `healthy_indices` list of `simple_disease_classifier` (line 133), verbatim. -/
def healthy_indices : List ℕ := [3, 5, 7, 11, 15, 18, 20, 23, 24, 25, 28, 38]

/-- Model of the `cv2.inRange` membership test for one HSV pixel: every channel lies within
the inclusive lower/upper bounds. -/
def inRange3 (lo hi p : ℕ × ℕ × ℕ) : Bool :=
  lo.1 ≤ p.1 && p.1 ≤ hi.1 && lo.2.1 ≤ p.2.1 && p.2.1 ≤ hi.2.1 &&
    lo.2.2 ≤ p.2.2 && p.2.2 ≤ hi.2.2

/-- One color-indicator ratio of `extract_color_features` (lines 44-54):
`np.sum(mask > 0) / (img.shape[0] * img.shape[1])`, the fraction of pixels
inside the bound. -/
def colorRatio (img : List (ℕ × ℕ × ℕ)) (lo hi : ℕ × ℕ × ℕ) : ℚ :=
  ((img.countP (inRange3 lo hi) : ℚ)) / (img.length : ℚ)

/-- One normalized channel mean of `extract_color_features` (lines 57-58):
`np.mean(hsv[:, :, i]) / 255.0`. -/
def channelMean (img : List (ℕ × ℕ × ℕ)) (ch : ℕ × ℕ × ℕ → ℕ) : ℚ :=
  ((img.map ch).sum : ℚ) / (img.length : ℚ) / 255

/-- Embedding of `extract_color_features` (lines 35-60): the five indicator ratios in
`DISEASE_INDICATORS` order, then the three HSV channel means divided by 255.
The HSV conversion itself is `cv2.cvtColor`, an external collaborator, so the
function takes the HSV pixel list directly. -/
def extract_color_features (img : List (ℕ × ℕ × ℕ)) : List ℚ :=
  DISEASE_INDICATORS.map (fun b => colorRatio img b.1 b.2) ++
    [channelMean img (fun p => p.1), channelMean img (fun p => p.2.1),
      channelMean img (fun p => p.2.2)]

/-- Embedding of `simple_disease_classifier` (lines 103-138) over a length-11 feature
vector (indices 0-7 = `color_features`, 8-10 = `texture_features`, so
`texture_features[1]` is `f 9`).  Random call sites: `r1` is the
`random.random()` of line 116; `ih` feeds `random.choice(healthy_indices)`
(line 134) as `healthy_indices.getD (ih % length)`; `n` feeds
`random.randint(0, len(CLASSES) - 1)` (line 138) as `n % CLASSES.length`,
producing exactly the integers that call can return. -/
def simple_disease_classifier (f : Fin 11 → ℚ) (r1 : ℚ) (ih n : ℕ) : ℕ :=
  if f 0 > 0.15 ∧ f 9 > 0.2 then
    (if r1 > 0.5 then 1 else 0)
  else if f 1 > 0.2 then 30
  else if f 3 > 0.1 then 6
  else if f 2 > 0.12 then 31
  else if (f 0 + f 1 + f 2 + f 3 + f 4) / 5 < 0.1 ∧ f 5 > 0.4 then
    healthy_indices.getD (ih % healthy_indices.length) 0
  else n % CLASSES.length

/-- One parsed element of a `detection_results.json` array: the two fields the
loader looks for, each possibly absent. -/
structure JsonItem where
  prediction : Option String
  confidence : Option ℚ

/-- Filesystem oracle: `fileExists` models `os.path.exists`, `parse` models
`open` + `json.load` (`none` = the read or parse raised). -/
structure FsOracle where
  fileExists : String → Bool
  parse : String → Option (List JsonItem)

/-- Random oracle: one field per `random.*` call site of
plant_disease_detector.py (see the field docs on `simple_disease_classifier`
and `detect_try`). -/
structure RandOracle where
  rUse : ℚ
  rRule1 : ℚ
  rConf : ℚ
  iSample : ℕ
  iHealthy : ℕ
  nFall : ℕ
  iErr : ℕ

/-- The hard-coded `sample_predictions` default of `load_sample_predictions`
(lines 142-148), verbatim. -/
def defaultSamplePredictions : List (String × ℚ) := [
  ("Apple_Scab", 0.904),
  ("Tomato_Late_blight", 0.856),
  ("Potato_Healthy", 0.736),
  ("Grape_Black_rot", 0.892),
  ("Corn_Common_rust", 0.817)
]

/-- Embedding of `possible_locations` (lines 151-155); `os.path.join` with POSIX
separators. -/
def possible_locations : List String := [
  "attached_assets/detection_results.json",
  "static/data/detection_results.json",
  "detection_results.json"
]

/-- The inner loop of `load_sample_predictions` (lines 163-166): keep the
items that have both a `prediction` and a `confidence` field. -/
def extractValid (items : List JsonItem) : List (String × ℚ) :=
  items.filterMap (fun it =>
    match it.prediction, it.confidence with
    | some p, some c => some (p, c)
    | _, _ => none)

/-- The location loop of `load_sample_predictions` (lines 157-173): skip a
location that does not exist; on parse failure (caught `Exception`) or an
empty valid-entry list, fall through to the next location; on the first
nonempty valid-entry list, return it (`break`); if the loop ends, return the
built-in default. -/
def load_from (fs : FsOracle) : List String → List (String × ℚ)
  | [] => defaultSamplePredictions
  | loc :: rest =>
    if fs.fileExists loc then
      match fs.parse loc with
      | some items =>
        if (extractValid items).length ≠ 0 then extractValid items
        else load_from fs rest
      | none => load_from fs rest
    else load_from fs rest

/-- Embedding of `load_sample_predictions` (lines 140-175). -/
def load_sample_predictions (fs : FsOracle) : List (String × ℚ) :=
  load_from fs possible_locations

/-- Model of `random.uniform(a, b)`: CPython computes `a + (b - a) * random.random()`
with `random.random()` in `[0, 1)`. -/
def uniform (a b r : ℚ) : ℚ := a + (b - a) * r

/-- Does the character list start with `pat`? (helper for the Python `in`
substring test). -/
def matchesAt : List Char → List Char → Bool
  | [], _ => true
  | _ :: _, [] => false
  | p :: ps, c :: cs => p == c && matchesAt ps cs

/-- Substring test on character lists: Python's `pat in s`. -/
def hasSub (pat : List Char) : List Char → Bool
  | [] => matchesAt pat []
  | c :: cs => matchesAt pat (c :: cs) || hasSub pat cs

/-- Errors the `try:` body of `detect_disease` can raise:
`preprocessError` = `preprocess_image` raised (unreadable / undecodable
image, line 89), `indexError` = the `CLASSES[predicted_class_index]` lookup
(line 203) was out of bounds. -/
inductive DetectError where
  | preprocessError
  | indexError
deriving DecidableEq

/-- The `try:` body of `detect_disease` (lines 179-214).  `features?` is the
combined result of `preprocess_image` + feature extraction (`none` = the
preprocessing raised; the concrete feature values do not influence
control flow beyond the classifier thresholds, so the vector is taken as
input).  Lines modelled: load table (191), `use_sample = random.random() <
0.3` (194), `random.choice(sample_predictions)` (198), classifier + `CLASSES`
lookup (202-203), confidence generation (207-210). -/
def detect_try (features? : Option (Fin 11 → ℚ)) (fs : FsOracle) (rng : RandOracle) :
    Except DetectError (String × ℚ) :=
  match features? with
  | none => Except.error DetectError.preprocessError
  | some f =>
    let table := load_sample_predictions fs
    if rng.rUse < 0.3 ∧ table.length ≠ 0 then
      Except.ok (table.getD (rng.iSample % table.length) ("", 0))
    else
      match CLASSES[simple_disease_classifier f rng.rRule1 rng.iHealthy rng.nFall]? with
      | none => Except.error DetectError.indexError
      | some label =>
        Except.ok (label,
          if hasSub "Healthy".data label.data then uniform 0.7 0.95 rng.rConf
          else uniform 0.6 0.9 rng.rConf)

/-- Embedding of `detect_disease` (lines 177-221): the `try:` body plus the
`except Exception:` handler (lines 216-221), which catches every error and
returns `random.choice(load_sample_predictions())`.  The result type is
`Except` so that "raises to the caller" is representable; the handler makes
every outcome `Except.ok`. -/
def detect_disease (features? : Option (Fin 11 → ℚ)) (fs : FsOracle) (rng : RandOracle) :
    Except DetectError (String × ℚ) :=
  match detect_try features? fs rng with
  | Except.ok r => Except.ok r
  | Except.error _ =>
    let table := load_sample_predictions fs
    Except.ok (table.getD (rng.iErr % table.length) ("", 0))

/-- Python `s.replace('_', ' ')` for the single-character pattern used by
gemini_service.py: replace each underscore character by a space. -/
def replaceUnderscores (s : String) : String :=
  String.mk (s.data.map (fun c => if c == '_' then ' ' else c))

/-- Outcome of the external `model.generate_content` call in
`get_treatment_recommendation`: `raised` = the call (or the `.text` access)
raised — in particular whenever no API credential is configured; `falsy` =
a falsy response object; `ok t` = a truthy response with text `t`. -/
inductive GenOutcome where
  | raised
  | falsy
  | ok (text : String)

/-- The f-string fallback text of `get_treatment_recommendation`
(lines 63-86), verbatim including the 8-space indentation of the Python
triple-quoted literal. -/
def fallback_recommendation (disease_name : String) : String :=
  "\n        # Treatment Recommendations for " ++ replaceUnderscores disease_name ++
  "\n\n        ## Description\n        This is a common plant disease that affects crops and ornamental plants.\n\n        ## Symptoms\n        - Discoloration of leaves\n        - Spots or lesions\n        - Wilting or stunted growth\n\n        ## Treatment\n        - Remove affected plant parts\n        - Apply appropriate fungicide or insecticide\n        - Ensure proper plant nutrition\n\n        ## Prevention\n        - Rotate crops\n        - Use disease-resistant varieties\n        - Maintain good air circulation\n        - Water at the base of plants to keep foliage dry\n\n        *Note: These are general recommendations. For specific treatment, please consult with a local agricultural extension service.*\n        "

/-- Embedding of `get_treatment_recommendation` (gemini_service.py, lines 20-86): a truthy
response returns its text, a falsy one returns the fixed apology line, and
any raised error (including the missing-credential case) lands in the
`except` handler, which returns the canned fallback text. -/
def get_treatment_recommendation (disease_name : String) (api : GenOutcome) : String :=
  match api with
  | GenOutcome.ok t => t
  | GenOutcome.falsy => "Unable to generate treatment recommendations at this time."
  | GenOutcome.raised => fallback_recommendation disease_name

/-- Maximum of a list of reals against 0 (`gradient_mag.max()` for the
nonnegative magnitude map; the source's map is nonempty and nonnegative, so
the extra 0 base does not change the value). -/
noncomputable def listMax (l : List ℝ) : ℝ := l.foldr max 0

/-- Model of `np.mean`: sum divided by length. -/
noncomputable def npMean (l : List ℝ) : ℝ := l.sum / l.length

/-- Model of `np.std`: square root of the mean squared deviation from the mean. -/
noncomputable def npStd (l : List ℝ) : ℝ :=
  Real.sqrt (npMean (l.map (fun x => (x - npMean l) ^ 2)))

/-- Model of `np.percentile(l, 90)` with numpy's default linear interpolation: with
`pos = 0.9 * (n - 1)`, `i = floor pos` and `frac = pos - i`, the result is
`s[i] + frac * (s[i + 1] - s[i])` over the sorted data `s` (when `i` is the
last index, `frac = 0` and the second order statistic is unused). -/
noncomputable def npPercentile90 (l : List ℝ) : ℝ :=
  (l.insertionSort (fun a b => a ≤ b)).getD (9 * (l.length - 1) / 10) 0 +
    (((9 * (l.length - 1)) % 10 : ℕ) : ℝ) / 10 *
      ((l.insertionSort (fun a b => a ≤ b)).getD (9 * (l.length - 1) / 10 + 1)
          ((l.insertionSort (fun a b => a ≤ b)).getD (9 * (l.length - 1) / 10) 0) -
        (l.insertionSort (fun a b => a ≤ b)).getD (9 * (l.length - 1) / 10) 0)

/-- The per-pixel gradient magnitude of `extract_texture_features` (line 70):
`np.sqrt(sobelx ** 2 + sobely ** 2)`, over the two Sobel response maps
(`cv2.Sobel`, an external collaborator, supplies `sobelx` and `sobely`). -/
noncomputable def gradient_magnitudes (sobelx sobely : List ℝ) : List ℝ :=
  List.zipWith (fun gx gy => Real.sqrt (gx ^ 2 + gy ^ 2)) sobelx sobely

/-- Line 73: `gradient_mag / gradient_mag.max() if gradient_mag.max() > 0
else gradient_mag`. -/
noncomputable def normalize_map (g : List ℝ) : List ℝ :=
  if listMax g > 0 then g.map (fun x => x / listMax g) else g

/-- Embedding of `extract_texture_features` (lines 62-81): mean, standard deviation and
90th percentile of the normalized gradient-magnitude map. -/
noncomputable def extract_texture_features (sobelx sobely : List ℝ) : List ℝ :=
  [npMean (normalize_map (gradient_magnitudes sobelx sobely)),
    npStd (normalize_map (gradient_magnitudes sobelx sobely)),
    npPercentile90 (normalize_map (gradient_magnitudes sobelx sobely))]

/-- The 11-element feature vector built in `detect_disease` (line 188):
`np.concatenate([color_features, texture_features])`. -/
noncomputable def extract_features (hsv : List (ℕ × ℕ × ℕ)) (sobelx sobely : List ℝ) :
    List ℝ :=
  (extract_color_features hsv).map (fun q : ℚ => (q : ℝ)) ++
    extract_texture_features sobelx sobely

/-- A filesystem on which no candidate sample file exists. -/
def fsEmpty : FsOracle where
  fileExists := fun _ => false
  parse := fun _ => none

/-- Filesystem for the loader counterexample: the first candidate location
exists but fails to parse, the second exists and parses to a single valid
entry, the third does not exist. -/
def fsSkipFirst : FsOracle where
  fileExists := fun s =>
    s == "attached_assets/detection_results.json" ||
      s == "static/data/detection_results.json"
  parse := fun s =>
    if s == "static/data/detection_results.json" then
      some [⟨some "X", some (1/2)⟩]
    else none

/-- Oracle that takes the 30% sample-substitution branch and picks the first
table entry. -/
def rngSample : RandOracle where
  rUse := 0
  rRule1 := 0
  rConf := 0
  iSample := 0
  iHealthy := 0
  nFall := 0
  iErr := 0

/-- Oracle for the error-fallback path picking the second table entry. -/
def rngErrSecond : RandOracle where
  rUse := 0
  rRule1 := 0
  rConf := 0
  iSample := 0
  iHealthy := 0
  nFall := 0
  iErr := 1

/-- Oracle for the error-fallback path picking the first table entry. -/
def rngErrFirst : RandOracle where
  rUse := 0
  rRule1 := 0
  rConf := 0
  iSample := 0
  iHealthy := 0
  nFall := 0
  iErr := 0

/-- Oracle that skips sample substitution (`rUse = 1`, so `1 < 0.3` fails)
and drives the classifier with all-zero draws. -/
def rngClassify : RandOracle where
  rUse := 1
  rRule1 := 0
  rConf := 0
  iSample := 0
  iHealthy := 0
  nFall := 0
  iErr := 0

/-- Spec-side rendering of the amended sample-table resolution rule: a single
candidate location contributes a table exactly when it exists and parses to a
nonempty list of valid entries. -/
def tableAt (fs : FsOracle) (loc : String) : Option (List (String × ℚ)) :=
  if fs.fileExists loc then
    match fs.parse loc with
    | some items =>
      if (extractValid items).length ≠ 0 then some (extractValid items) else none
    | none => none
  else none

lemma CLASSES_length_eq : CLASSES.length = 39 := by decide

/-- A predicate that holds for a list's elements and for the default holds for
any `getD` access. -/
lemma getD_pred {α : Type} (P : α → Prop) (d : α) (hd : P d) (l : List α) :
    ∀ (j : ℕ), (∀ x ∈ l, P x) → P (l.getD j d) := by
  induction l with
  | nil =>
    intro j _
    simpa [List.getD] using hd
  | cons a t ihl =>
    intro j h
    cases j with
    | zero => simpa using h a (by simp)
    | succ k => simpa using ihl k (fun x hx => h x (by simp [hx]))

/-- Taking an index modulo the length of a nonempty list, `getD` returns a
member of the list (the model of `random.choice`). -/
lemma getD_mod_mem {α : Type} (l : List α) (d : α) (i : ℕ) (h : l ≠ []) :
    l.getD (i % l.length) d ∈ l := by
  have hlen : 0 < l.length := List.length_pos.mpr h
  have hlt : i % l.length < l.length := Nat.mod_lt _ hlen
  rw [List.getD_eq_getElem l d hlt]
  exact List.getElem_mem hlt

/-- Every branch of `simple_disease_classifier` returns an index strictly
below `CLASSES.length`. -/
lemma classifier_lt (f : Fin 11 → ℚ) (r1 : ℚ) (ih n : ℕ) :
    simple_disease_classifier f r1 ih n < CLASSES.length := by
  unfold simple_disease_classifier
  split_ifs
  · decide
  · decide
  · decide
  · decide
  · decide
  · exact getD_pred (fun m => m < CLASSES.length) 0 (by decide) healthy_indices _
      (by decide)
  · exact Nat.mod_lt _ (by decide)

/-- Lemma: `load_from` never returns the empty list: the built-in default is
nonempty and a file is only accepted when its valid-entry list is nonempty. -/
lemma load_from_ne_nil (fs : FsOracle) : ∀ locs : List String, load_from fs locs ≠ []
  | [] => by simp [load_from, defaultSamplePredictions]
  | loc :: rest => by
    simp only [load_from]
    by_cases he : fs.fileExists loc
    · simp only [he, if_true]
      cases hp : fs.parse loc with
      | none => exact load_from_ne_nil fs rest
      | some items =>
        show (if (extractValid items).length ≠ 0 then extractValid items
          else load_from fs rest) ≠ []
        by_cases hv : (extractValid items).length ≠ 0
        · rw [if_pos hv]
          intro hnil
          exact hv (by simp [hnil])
        · rw [if_neg hv]
          exact load_from_ne_nil fs rest
    · simp only [he, if_false]
      exact load_from_ne_nil fs rest

lemma load_ne_nil (fs : FsOracle) : load_sample_predictions fs ≠ [] :=
  load_from_ne_nil fs possible_locations

/-- Range of the model of `random.uniform(a, b)` for a random draw in
`[0, 1)`. -/
lemma uniform_bounds (a b r : ℚ) (hab : a < b) (h0 : 0 ≤ r) (h1 : r < 1) :
    a ≤ uniform a b r ∧ uniform a b r < b := by
  unfold uniform
  constructor
  · nlinarith
  · nlinarith

/-- On the classifier path (sample substitution not taken), `detect_disease`
returns a `CLASSES` member with the range-dependent uniform confidence. -/
lemma detect_classifier_path (f : Fin 11 → ℚ) (fs : FsOracle) (rng : RandOracle)
    (hns : ¬ (rng.rUse < 0.3 ∧ (load_sample_predictions fs).length ≠ 0)) :
    ∃ label, label ∈ CLASSES ∧
      detect_disease (some f) fs rng = Except.ok (label,
        if hasSub "Healthy".data label.data then uniform 0.7 0.95 rng.rConf
        else uniform 0.6 0.9 rng.rConf) := by
  have hlt := classifier_lt f rng.rRule1 rng.iHealthy rng.nFall
  refine ⟨CLASSES.get ⟨simple_disease_classifier f rng.rRule1 rng.iHealthy rng.nFall, hlt⟩,
    List.get_mem _ _ hlt, ?_⟩
  unfold detect_disease detect_try
  simp only [hns, if_false]
  rw [List.getElem?_eq_getElem hlt]
  rfl

lemma listMax_nonneg (l : List ℝ) : 0 ≤ listMax l := by
  induction l with
  | nil => simp [listMax]
  | cons a t ihl =>
    simp only [listMax, List.foldr_cons]
    exact le_trans ihl (le_max_right _ _)

lemma mem_le_listMax {l : List ℝ} {x : ℝ} (hx : x ∈ l) : x ≤ listMax l := by
  induction l with
  | nil => simp at hx
  | cons a t ihl =>
    simp only [listMax, List.foldr_cons]
    rcases List.mem_cons.mp hx with rfl | hmem
    · exact le_max_left _ _
    · exact le_trans (ihl hmem) (le_max_right _ _)

lemma normalize_map_bounds {g : List ℝ} (hg : ∀ x ∈ g, 0 ≤ x) :
    ∀ y ∈ normalize_map g, 0 ≤ y ∧ y ≤ 1 := by
  intro y hy
  unfold normalize_map at hy
  by_cases hM : listMax g > 0
  · rw [if_pos hM] at hy
    rcases List.mem_map.mp hy with ⟨x, hx, rfl⟩
    exact ⟨div_nonneg (hg x hx) hM.le, (div_le_one hM).mpr (mem_le_listMax hx)⟩
  · rw [if_neg hM] at hy
    exact ⟨hg y hy, le_trans (mem_le_listMax hy) (le_trans (not_lt.mp hM) zero_le_one)⟩

lemma gradient_magnitudes_nonneg : ∀ (sx sy : List ℝ), ∀ x ∈ gradient_magnitudes sx sy, 0 ≤ x
  | [], _, x, hx => by simp [gradient_magnitudes] at hx
  | _ :: _, [], x, hx => by simp [gradient_magnitudes] at hx
  | a :: t, b :: u, x, hx => by
    simp only [gradient_magnitudes, List.zipWith_cons_cons, List.mem_cons] at hx
    rcases hx with rfl | hmem
    · exact Real.sqrt_nonneg _
    · exact gradient_magnitudes_nonneg t u x (by simpa [gradient_magnitudes] using hmem)

lemma npMean_bounds {l : List ℝ} (h : ∀ x ∈ l, 0 ≤ x ∧ x ≤ 1) :
    0 ≤ npMean l ∧ npMean l ≤ 1 := by
  unfold npMean
  rcases eq_or_ne l [] with rfl | hne
  · simp
  · have hlen : 0 < (l.length : ℝ) := by
      exact_mod_cast List.length_pos.mpr hne
    have hsum0 : 0 ≤ l.sum := List.sum_nonneg (fun x hx => (h x hx).1)
    have hsum1 : l.sum ≤ (l.length : ℝ) := by
      have := List.sum_le_card_nsmul l 1 (fun x hx => (h x hx).2)
      simpa [nsmul_eq_mul] using this
    exact ⟨div_nonneg hsum0 hlen.le, by rw [div_le_one hlen]; exact hsum1⟩

lemma npStd_bounds {l : List ℝ} (h : ∀ x ∈ l, 0 ≤ x ∧ x ≤ 1) :
    0 ≤ npStd l ∧ npStd l ≤ 1 := by
  have hm := npMean_bounds h
  have hsq : ∀ y ∈ l.map (fun x => (x - npMean l) ^ 2), 0 ≤ y ∧ y ≤ 1 := by
    intro y hy
    rcases List.mem_map.mp hy with ⟨x, hx, rfl⟩
    have hx' := h x hx
    constructor
    · positivity
    · nlinarith [hx'.1, hx'.2, hm.1, hm.2]
  have h2 := npMean_bounds hsq
  exact ⟨Real.sqrt_nonneg _, Real.sqrt_le_one.mpr h2.2⟩

lemma npPercentile90_bounds {l : List ℝ} (h : ∀ x ∈ l, 0 ≤ x ∧ x ≤ 1) :
    0 ≤ npPercentile90 l ∧ npPercentile90 l ≤ 1 := by
  unfold npPercentile90
  have hs : ∀ x ∈ l.insertionSort (fun a b => a ≤ b), 0 ≤ x ∧ x ≤ 1 := by
    intro x hx
    exact h x ((List.mem_insertionSort (fun a b => a ≤ b)).mp hx)
  set s := l.insertionSort (fun a b => a ≤ b) with hsdef
  set i := 9 * (l.length - 1) / 10 with hidef
  have ha : 0 ≤ s.getD i 0 ∧ s.getD i 0 ≤ 1 :=
    getD_pred (fun x => 0 ≤ x ∧ x ≤ 1) 0 (by norm_num) s i hs
  have hb : 0 ≤ s.getD (i + 1) (s.getD i 0) ∧ s.getD (i + 1) (s.getD i 0) ≤ 1 :=
    getD_pred (fun x => 0 ≤ x ∧ x ≤ 1) (s.getD i 0) ha s (i + 1) hs
  have hfrac0 : (0 : ℝ) ≤ ((9 * (l.length - 1)) % 10 : ℕ) / 10 := by positivity
  have hfrac1 : (((9 * (l.length - 1)) % 10 : ℕ) : ℝ) / 10 ≤ 1 := by
    have hlt : (9 * (l.length - 1)) % 10 < 10 := Nat.mod_lt _ (by norm_num)
    have : (((9 * (l.length - 1)) % 10 : ℕ) : ℝ) ≤ 10 := by exact_mod_cast hlt.le
    linarith
  constructor
  · nlinarith [ha.1, ha.2, hb.1, hb.2]
  · nlinarith [ha.1, ha.2, hb.1, hb.2]

lemma extract_texture_features_bounds (sx sy : List ℝ) :
    ∀ x ∈ extract_texture_features sx sy, 0 ≤ x ∧ x ≤ 1 := by
  have hn := normalize_map_bounds (gradient_magnitudes_nonneg sx sy)
  intro x hx
  unfold extract_texture_features at hx
  simp only [List.mem_cons, List.not_mem_nil, or_false] at hx
  rcases hx with rfl | rfl | rfl
  · exact npMean_bounds hn
  · exact npStd_bounds hn
  · exact npPercentile90_bounds hn

lemma colorRatio_bounds (img : List (ℕ × ℕ × ℕ)) (lo hi : ℕ × ℕ × ℕ)
    (hne : img ≠ []) : 0 ≤ colorRatio img lo hi ∧ colorRatio img lo hi ≤ 1 := by
  unfold colorRatio
  have hlen : 0 < (img.length : ℚ) := by exact_mod_cast List.length_pos.mpr hne
  constructor
  · positivity
  · rw [div_le_one hlen]
    exact_mod_cast List.countP_le_length (inRange3 lo hi)

lemma channelMean_bounds (img : List (ℕ × ℕ × ℕ)) (ch : ℕ × ℕ × ℕ → ℕ)
    (hne : img ≠ []) (hch : ∀ p ∈ img, ch p ≤ 255) :
    0 ≤ channelMean img ch ∧ channelMean img ch ≤ 1 := by
  unfold channelMean
  have hlen : 0 < (img.length : ℚ) := by exact_mod_cast List.length_pos.mpr hne
  constructor
  · positivity
  · have hsumN : (img.map ch).sum ≤ img.length * 255 := by
      have := List.sum_le_card_nsmul (img.map ch) 255 (by
        intro x hx
        rcases List.mem_map.mp hx with ⟨p, hp, rfl⟩
        exact hch p hp)
      simpa [smul_eq_mul] using this
    have hsumQ : ((img.map ch).sum : ℚ) ≤ (img.length : ℚ) * 255 := by
      exact_mod_cast hsumN
    rw [div_le_one (by norm_num : (0 : ℚ) < 255), div_le_iff₀ hlen]
    linarith

lemma extract_color_features_bounds (img : List (ℕ × ℕ × ℕ)) (hne : img ≠ [])
    (hch : ∀ p ∈ img, p.1 ≤ 255 ∧ p.2.1 ≤ 255 ∧ p.2.2 ≤ 255) :
    ∀ q ∈ extract_color_features img, 0 ≤ q ∧ q ≤ 1 := by
  intro q hq
  unfold extract_color_features at hq
  rcases List.mem_append.mp hq with hq | hq
  · rcases List.mem_map.mp hq with ⟨b, _, rfl⟩
    exact colorRatio_bounds img b.1 b.2 hne
  · simp only [List.mem_cons, List.not_mem_nil, or_false] at hq
    rcases hq with rfl | rfl | rfl
    · exact channelMean_bounds img _ hne (fun p hp => (hch p hp).1)
    · exact channelMean_bounds img _ hne (fun p hp => (hch p hp).2.1)
    · exact channelMean_bounds img _ hne (fun p hp => (hch p hp).2.2)

/-- C1 (corrected, counterexample): with no sample file on disk, a detection
call that takes the 30% sample-substitution branch (`rUse = 0 < 0.3`) with
first-entry choice returns the built-in pair `("Apple_Scab", 0.904)`, and
`"Apple_Scab"` is not a member of `CLASSES`; so the claimed invariant
"every returned label is in the `CLASSES` enumeration, including the
sample-substitution path" is false. -/
theorem C1_counterexample :
    detect_disease (some (fun _ => 0)) fsEmpty rngSample =
      Except.ok ("Apple_Scab", 0.904) ∧ "Apple_Scab" ∉ CLASSES := by
  constructor
  · simp [detect_disease, detect_try, load_sample_predictions, load_from,
      possible_locations, defaultSamplePredictions, fsEmpty, rngSample, List.getD]
    norm_num
  · decide

/-- C1 (amended): on the classifier path — sample substitution not taken and
no error — the returned label is a member of `CLASSES` and the confidence
lies strictly between 0 and 1; on the sample-substitution and error-fallback
paths the result is an entry of the loaded `SamplePredictionTable` (whose
labels need not belong to `CLASSES`). -/
theorem C1_label_and_confidence (f : Fin 11 → ℚ) (fs : FsOracle) (rng : RandOracle)
    (h0 : 0 ≤ rng.rConf) (h1 : rng.rConf < 1)
    (hns : ¬ (rng.rUse < 0.3 ∧ (load_sample_predictions fs).length ≠ 0)) :
    (∃ label conf,
      detect_disease (some f) fs rng = Except.ok (label, conf) ∧
      label ∈ CLASSES ∧ 0 < conf ∧ conf < 1) ∧
    (∀ r, detect_disease none fs rng = Except.ok r →
      r ∈ load_sample_predictions fs) := by
  constructor
  · obtain ⟨label, hmem, heq⟩ := detect_classifier_path f fs rng hns
    refine ⟨label, _, heq, hmem, ?_⟩
    by_cases hh : hasSub "Healthy".data label.data
    · rw [if_pos hh]
      have := uniform_bounds 0.7 0.95 rng.rConf (by norm_num) h0 h1
      constructor
      · linarith [this.1]
      · linarith [this.2]
    · rw [if_neg hh]
      have := uniform_bounds 0.6 0.9 rng.rConf (by norm_num) h0 h1
      constructor
      · linarith [this.1]
      · linarith [this.2]
  · intro r hr
    unfold detect_disease detect_try at hr
    simp only [Except.ok.injEq] at hr
    rw [← hr]
    exact getD_mod_mem _ _ _ (load_ne_nil fs)

/-- Witness for C1: concrete environment on the classifier path. -/
theorem C1_witness :
    (∃ label conf,
      detect_disease (some (fun _ => 0.1)) fsEmpty rngClassify = Except.ok (label, conf) ∧
      label ∈ CLASSES ∧ 0 < conf ∧ conf < 1) ∧
    (∀ r, detect_disease none fsEmpty rngClassify = Except.ok r →
      r ∈ load_sample_predictions fsEmpty) :=
  C1_label_and_confidence (fun _ => 0.1) fsEmpty rngClassify (by norm_num [rngClassify])
    (by norm_num [rngClassify])
    (by
      intro h
      have : (1 : ℚ) < 0.3 := by simpa [rngClassify] using h.1
      norm_num at this)

/-- C2 (corrected, counterexample): when the image cannot be loaded
(`preprocess_image` raises, modelled by `none`), `detect_disease` does not
propagate the error: on a concrete environment it returns the normal result
`("Tomato_Late_blight", 0.856)` drawn from the built-in sample table, and no
error value is ever produced — contradicting the claim that input/decoding
errors are a hard failure raised to the caller. -/
theorem C2_counterexample :
    detect_disease none fsEmpty rngErrSecond = Except.ok ("Tomato_Late_blight", 0.856) ∧
    ∀ e, detect_disease none fsEmpty rngErrSecond ≠ Except.error e := by
  constructor
  · simp [detect_disease, detect_try, load_sample_predictions, load_from,
      possible_locations, defaultSamplePredictions, fsEmpty, rngErrSecond, List.getD]
  · intro e
    simp [detect_disease, detect_try, load_sample_predictions, load_from,
      possible_locations, defaultSamplePredictions, fsEmpty, rngErrSecond, List.getD]

/-- C2 (amended): every error inside the detection body — including an
image-load/decoding failure — is caught by the `except` handler:
`detect_disease` always returns a normal result, and on the load-failure
input the result is exactly the `random.choice`-selected entry of the
`SamplePredictionTable` (a member of that table); the entry point never
raises. -/
theorem C2_errors_recovered (features? : Option (Fin 11 → ℚ)) (fs : FsOracle)
    (rng : RandOracle) :
    (∃ r, detect_disease features? fs rng = Except.ok r) ∧
    (features? = none →
      detect_disease features? fs rng =
        Except.ok ((load_sample_predictions fs).getD
          (rng.iErr % (load_sample_predictions fs).length) ("", 0)) ∧
      (load_sample_predictions fs).getD
          (rng.iErr % (load_sample_predictions fs).length) ("", 0)
        ∈ load_sample_predictions fs) := by
  constructor
  · unfold detect_disease
    cases h : detect_try features? fs rng with
    | ok r => exact ⟨r, rfl⟩
    | error e =>
      exact ⟨(load_sample_predictions fs).getD
        (rng.iErr % (load_sample_predictions fs).length) ("", 0), rfl⟩
  · rintro rfl
    exact ⟨rfl, getD_mod_mem _ _ _ (load_ne_nil fs)⟩

/-- Witness for C2 at a concrete load-failure environment. -/
theorem C2_witness :
    detect_disease none fsEmpty rngErrFirst =
      Except.ok ((load_sample_predictions fsEmpty).getD
        (rngErrFirst.iErr % (load_sample_predictions fsEmpty).length) ("", 0)) ∧
    (load_sample_predictions fsEmpty).getD
        (rngErrFirst.iErr % (load_sample_predictions fsEmpty).length) ("", 0)
      ∈ load_sample_predictions fsEmpty :=
  (C2_errors_recovered none fsEmpty rngErrFirst).2 rfl

/-- C3 (corrected, counterexample): the `CLASSES` enumeration does not
contain exactly 38 labels — it contains 39. -/
theorem C3_counterexample : ¬ (CLASSES.length = 38) := by decide

/-- C3 (amended): `CLASSES` contains exactly 39 labels, and the final
fallback rule of the classifier (`random.randint(0, len(CLASSES) - 1)`)
ranges over exactly the full 39-label enumeration: when no earlier rule
matches, every index below `CLASSES.length` is a possible outcome (the
oracle draw is returned unchanged) and no other value is. -/
theorem C3_39_label_fallback :
    CLASSES.length = 39 ∧
    ∀ (f : Fin 11 → ℚ) (r1 : ℚ) (ih n : ℕ),
      ¬ (f 0 > 0.15 ∧ f 9 > 0.2) → ¬ (f 1 > 0.2) → ¬ (f 3 > 0.1) → ¬ (f 2 > 0.12) →
      ¬ ((f 0 + f 1 + f 2 + f 3 + f 4) / 5 < 0.1 ∧ f 5 > 0.4) →
      simple_disease_classifier f r1 ih n < CLASSES.length ∧
      (n < CLASSES.length → simple_disease_classifier f r1 ih n = n) := by
  refine ⟨by decide, ?_⟩
  intro f r1 ih n h1 h2 h3 h4 h5
  have hcls : simple_disease_classifier f r1 ih n = n % CLASSES.length := by
    unfold simple_disease_classifier
    rw [if_neg h1, if_neg h2, if_neg h3, if_neg h4, if_neg h5]
  refine ⟨classifier_lt f r1 ih n, ?_⟩
  intro hn
  rw [hcls]
  exact Nat.mod_eq_of_lt hn

/-- Witness for C3: a feature vector on which no threshold rule fires and
the fallback draw 5 is returned as index 5. -/
theorem C3_witness :
    simple_disease_classifier (fun _ => 0.1) 0 0 5 = 5 :=
  ((C3_39_label_fallback.2 (fun _ => 0.1) 0 0 5 (by norm_num) (by norm_num)
    (by norm_num) (by norm_num) (by norm_num)).2 (by decide))

/-- C4 (confirmed): whenever the brown-indicator ratio exceeds 0.15 and the
texture standard deviation (feature 9) exceeds 0.2, the classifier resolves
via rule 1 for every value of the remaining features — in particular even
when rule 2's yellow-ratio condition also holds — returning index 0
(`Apple_Apple_scab`) or index 1 (`Apple_Black_rot`). -/
theorem C4_rule1_first_match (f : Fin 11 → ℚ) (r1 : ℚ) (ih n : ℕ)
    (h1 : f 0 > 0.15) (h2 : f 9 > 0.2) :
    (simple_disease_classifier f r1 ih n = 0 ∨
      simple_disease_classifier f r1 ih n = 1) ∧
    CLASSES.getD 0 "" = "Apple_Apple_scab" ∧ CLASSES.getD 1 "" = "Apple_Black_rot" := by
  refine ⟨?_, by decide, by decide⟩
  unfold simple_disease_classifier
  rw [if_pos ⟨h1, h2⟩]
  by_cases hr : r1 > 0.5
  · rw [if_pos hr]
    right
    rfl
  · rw [if_neg hr]
    left
    rfl

/-- Witness for C4 on the all-ones vector, which satisfies rule 1's and
rule 2's conditions simultaneously. -/
theorem C4_witness :
    (simple_disease_classifier (fun _ => 1) 0 0 0 = 0 ∨
      simple_disease_classifier (fun _ => 1) 0 0 0 = 1) ∧
    CLASSES.getD 0 "" = "Apple_Apple_scab" ∧ CLASSES.getD 1 "" = "Apple_Black_rot" :=
  C4_rule1_first_match (fun _ => 1) 0 0 0 (by norm_num) (by norm_num)

/-- C5 (confirmed): for every nonempty HSV image whose channels are 8-bit
(each value at most 255), and any Sobel response maps, the feature vector
`np.concatenate([color_features, texture_features])` has exactly 11 entries
and every entry lies within `[0, 1]`. -/
theorem C5_feature_vector_bounds (hsv : List (ℕ × ℕ × ℕ)) (sx sy : List ℝ)
    (hne : hsv ≠ [])
    (hch : ∀ p ∈ hsv, p.1 ≤ 255 ∧ p.2.1 ≤ 255 ∧ p.2.2 ≤ 255) :
    (extract_features hsv sx sy).length = 11 ∧
    ∀ x ∈ extract_features hsv sx sy, 0 ≤ x ∧ x ≤ 1 := by
  constructor
  · simp [extract_features, extract_color_features, extract_texture_features,
      DISEASE_INDICATORS]
  · intro x hx
    unfold extract_features at hx
    rcases List.mem_append.mp hx with hx | hx
    · simp only [List.mem_map] at hx
      obtain ⟨q, hq, rfl⟩ := hx
      have hb := extract_color_features_bounds hsv hne hch q hq
      constructor
      · exact_mod_cast hb.1
      · exact_mod_cast hb.2
    · exact extract_texture_features_bounds sx sy x hx

/-- Witness for C5 at a one-pixel black image with empty Sobel maps. -/
theorem C5_witness :
    (extract_features [(0, 0, 0)] [] []).length = 11 ∧
    ∀ x ∈ extract_features [(0, 0, 0)] [] [], 0 ≤ x ∧ x ≤ 1 :=
  C5_feature_vector_bounds [(0, 0, 0)] [] [] (by decide) (by decide)

/-- C6 (corrected, counterexample): the claim quantifies over every detection
call on which the sample-substitution path is not taken, which includes the
error-fallback path (there the 30% check never runs).  On a concrete
load-failure environment the error-fallback returns `("Apple_Scab", 0.904)`:
the label does not contain the healthy marker, yet the confidence 0.904 lies
outside the claimed range `[0.6, 0.9]`. -/
theorem C6_counterexample :
    detect_disease none fsEmpty rngErrFirst = Except.ok ("Apple_Scab", 0.904) ∧
    hasSub "Healthy".data "Apple_Scab".data = false ∧
    ¬ ((0.904 : ℚ) ≤ 0.9) := by
  refine ⟨?_, by decide, by norm_num⟩
  simp [detect_disease, detect_try, load_sample_predictions, load_from,
    possible_locations, defaultSamplePredictions, fsEmpty, rngErrFirst, List.getD]

/-- C6 (amended): on every detection call on which the classifier rules
actually run — no error occurred and the sample-substitution branch was not
taken — a label containing the healthy marker comes with confidence in
`[0.7, 0.95]` and any other label with confidence in `[0.6, 0.9]`. -/
theorem C6_confidence_ranges (f : Fin 11 → ℚ) (fs : FsOracle) (rng : RandOracle)
    (label : String) (conf : ℚ)
    (h0 : 0 ≤ rng.rConf) (h1 : rng.rConf < 1)
    (hns : ¬ (rng.rUse < 0.3 ∧ (load_sample_predictions fs).length ≠ 0))
    (hok : detect_disease (some f) fs rng = Except.ok (label, conf)) :
    (hasSub "Healthy".data label.data = true → 0.7 ≤ conf ∧ conf ≤ 0.95) ∧
    (hasSub "Healthy".data label.data = false → 0.6 ≤ conf ∧ conf ≤ 0.9) := by
  obtain ⟨label', _, heq⟩ := detect_classifier_path f fs rng hns
  rw [heq] at hok
  simp only [Except.ok.injEq, Prod.mk.injEq] at hok
  obtain ⟨hl, hc⟩ := hok
  subst hl
  constructor
  · intro hh
    rw [if_pos hh] at hc
    have := uniform_bounds 0.7 0.95 rng.rConf (by norm_num) h0 h1
    rw [← hc]
    exact ⟨this.1, this.2.le⟩
  · intro hh
    rw [if_neg (by simp [hh]) ] at hc
    have := uniform_bounds 0.6 0.9 rng.rConf (by norm_num) h0 h1
    rw [← hc]
    exact ⟨this.1, this.2.le⟩

/-- Witness for C6: the concrete classifier-path run that returns
`("Apple_Apple_scab", 0.6)`. -/
theorem C6_witness :
    (hasSub "Healthy".data "Apple_Apple_scab".data = true →
      (0.7 : ℚ) ≤ 0.6 ∧ (0.6 : ℚ) ≤ 0.95) ∧
    (hasSub "Healthy".data "Apple_Apple_scab".data = false →
      (0.6 : ℚ) ≤ 0.6 ∧ (0.6 : ℚ) ≤ 0.9) :=
  C6_confidence_ranges (fun _ => 0.1) fsEmpty rngClassify "Apple_Apple_scab" 0.6
    (by norm_num [rngClassify]) (by norm_num [rngClassify])
    (by
      intro h
      have : (1 : ℚ) < 0.3 := by simpa [rngClassify] using h.1
      norm_num at this)
    (by
      have hh : hasSub "Healthy".data "Apple_Apple_scab".data = false := by decide
      simp [detect_disease, detect_try, load_sample_predictions, load_from,
        possible_locations, defaultSamplePredictions, fsEmpty, rngClassify,
        simple_disease_classifier, List.getD, CLASSES, uniform, hh]
      norm_num
      all_goals decide)

/-- C7 (corrected, counterexample): the first existing candidate (the
`attached_assets` location) fails to parse, yet the loader does not fall back
to the built-in default and does not use that first existing location — it
moves on and returns the entries of the second location.  This contradicts
both halves of the claim's "otherwise the table comes from the first existing
candidate location". -/
theorem C7_counterexample :
    load_sample_predictions fsSkipFirst = [("X", 1/2)] ∧
    fsSkipFirst.fileExists "attached_assets/detection_results.json" = true ∧
    fsSkipFirst.parse "attached_assets/detection_results.json" = none ∧
    load_sample_predictions fsSkipFirst ≠ defaultSamplePredictions := by
  have h1 : load_sample_predictions fsSkipFirst = [("X", 1/2)] := by
    simp [load_sample_predictions, load_from, possible_locations, fsSkipFirst, extractValid]
  refine ⟨h1, rfl, rfl, ?_⟩
  rw [h1]
  intro h
  simp [defaultSamplePredictions] at h

/-- C7 (amended): the loaded table is determined by the first candidate
location, in the fixed priority order, that exists *and* parses to at least
one valid entry (`tableAt`); a candidate that exists but fails to parse or
yields no valid entries is skipped in favor of later candidates, and if no
candidate qualifies the result is the built-in 5-entry default. -/
theorem C7_first_valid_candidate (fs : FsOracle) :
    load_sample_predictions fs =
      (tableAt fs "attached_assets/detection_results.json").getD
        ((tableAt fs "static/data/detection_results.json").getD
          ((tableAt fs "detection_results.json").getD defaultSamplePredictions)) := by
  have hone : ∀ (loc : String) (rest : List String),
      load_from fs (loc :: rest) = (tableAt fs loc).getD (load_from fs rest) := by
    intro loc rest
    unfold tableAt
    by_cases he : fs.fileExists loc
    · simp only [load_from, he, if_true]
      cases hp : fs.parse loc with
      | none => simp
      | some items =>
        by_cases hv : (extractValid items).length ≠ 0
        · simp [hv]
        · simp [hv]
    · simp only [load_from, he, if_false]
      simp
  show load_from fs possible_locations = _
  rw [show possible_locations = "attached_assets/detection_results.json" ::
    "static/data/detection_results.json" :: "detection_results.json" :: [] from rfl]
  rw [hone, hone, hone]
  rfl

/-- C8 (confirmed): feature extraction is a pure function of the decoded
image (and the Sobel responses derived from it): it consults no random
oracle — unlike `simple_disease_classifier` and `detect_disease`, its
embedding takes no `RandOracle` argument — so two invocations on identical
input yield identical 11-element vectors. -/
theorem C8_extraction_deterministic (hsv hsv' : List (ℕ × ℕ × ℕ))
    (sx sx' sy sy' : List ℝ)
    (h1 : hsv = hsv') (h2 : sx = sx') (h3 : sy = sy') :
    extract_features hsv sx sy = extract_features hsv' sx' sy' := by
  subst h1
  subst h2
  subst h3
  rfl

/-- Witness for C8 at a concrete one-pixel image. -/
theorem C8_witness :
    extract_features [(0, 0, 0)] [] [] = extract_features [(0, 0, 0)] [] [] :=
  C8_extraction_deterministic [(0, 0, 0)] [(0, 0, 0)] [] [] [] [] rfl rfl rfl

set_option maxRecDepth 40000 in
/-- C9 (confirmed): when the external generative call raises — in particular
whenever no API credential is configured — the advice entry point called
with `"Tomato_Late_blight"` returns (it cannot raise: the model is a total
function, mirroring the source's catch-all handler) a text containing the
four section headers and the underscore-free phrase `"Tomato Late blight"`. -/
theorem C9_fallback_structure :
    hasSub "Description".data
      (get_treatment_recommendation "Tomato_Late_blight" GenOutcome.raised).data = true ∧
    hasSub "Symptoms".data
      (get_treatment_recommendation "Tomato_Late_blight" GenOutcome.raised).data = true ∧
    hasSub "Treatment".data
      (get_treatment_recommendation "Tomato_Late_blight" GenOutcome.raised).data = true ∧
    hasSub "Prevention".data
      (get_treatment_recommendation "Tomato_Late_blight" GenOutcome.raised).data = true ∧
    hasSub "Tomato Late blight".data
      (get_treatment_recommendation "Tomato_Late_blight" GenOutcome.raised).data = true := by
  decide

/-- C10 (confirmed): for every feature vector and every admissible random
draw, `simple_disease_classifier` returns an index strictly below
`CLASSES.length` (39) — rule 5's literal index 38 included — so the
`CLASSES[predicted_class_index]` lookup in `detect_disease` always
succeeds. -/
theorem C10_classifier_index_valid (f : Fin 11 → ℚ) (r1 : ℚ) (ih n : ℕ) :
    simple_disease_classifier f r1 ih n < CLASSES.length ∧
    ∃ label, CLASSES[simple_disease_classifier f r1 ih n]? = some label :=
  ⟨classifier_lt f r1 ih n,
    ⟨_, List.getElem?_eq_getElem (classifier_lt f r1 ih n)⟩⟩
